import Mathlib

/-!
Verification development for the GameBrowser repository (src/backend).

The repository is a small game-library manager: a CRUD layer over four record
kinds (Game, Category, Picture, LookupFolder) in `crud.py` / `models.py`, and a
`BrowserBackend` script in `main.py` that discovers executables in registered
lookup folders, matches them against the SteamGridDB web API, reconciles the
result set against the store, and launches games.

This file is a shallow embedding of that code:

* The store is a `DB` value holding the four record tables as lists, with
  per-table autoincrement counters.  `category_id` foreign keys are represented
  by the (unique) category name in the `category` field of `Game`.
* Every CRUD function is translated directly from `crud.py`.  The source
  filters of the form `filter(A == x and B == y)` use the Python `and` of two
  SQLAlchemy binary expressions; the first operand is falsy (its `__bool__`
  compares hashes of the two sides, which differ), so `A and B` evaluates to
  the first expression and the executed filter restricts on the FIRST condition
  only.  The embedding therefore filters games by name only and pictures by
  game_id only, exactly as the source behaves at runtime.
* Stateful operations of `main.py` return a `Res` value: normal return or a
  raised Python exception, in both cases together with the database state at
  that moment (a raised exception does not roll back committed work).
* HTTP traffic (SteamGridDB) and the filesystem walk are external
  collaborators; they enter as oracle values (`Steam`, `Env.fs`).  The process
  launcher is a `String → Bool` oracle.
* Two dynamic-typing behaviors of the source are modeled explicitly because
  they decide several claims: `crud.delete_game` receives a `PyVal` (both call
  sites in `main.py` pass `game.id`, an int, and `Session.delete` raises
  `UnmappedInstanceError` on a non-mapped value), and keyword calls to
  `crud.update_game` go through `callUpdateGame`, which raises `TypeError`
  when a supplied keyword is not among the function parameters (the call in
  `BrowserBackend.update_games` passes `parent_folder=`, but the parameter is
  named `parent_directory`).
-/

/-- Timestamps (`datetime`) are abstracted to a tick count; only freshness of
the value matters to the claims. -/
abbrev Time := Nat

/-- Raw image bytes (`bytes` in Python, `LargeBinary` column). -/
abbrev Bytes := List Nat

/-- `models.Game`.  The `category_id` foreign key is represented by the unique
category name; `last_played` is nullable. -/
structure Game where
  id : Nat
  name : String
  category : String
  executable : String
  steamGridId : Int
  lastPlayed : Option Time
  parentDirectory : String
  deriving DecidableEq, Repr

/-- `models.Category`. -/
structure Category where
  id : Nat
  name : String
  deriving DecidableEq, Repr

/-- `models.Picture`. -/
structure Picture where
  id : Nat
  picture : Bytes
  gameId : Nat
  deriving DecidableEq, Repr

/-- `models.LookupFolder`. -/
structure LookupFolder where
  id : Nat
  location : String
  deriving DecidableEq, Repr

/-- The relational store: the four tables in insertion order plus the
autoincrement counter of each table. -/
structure DB where
  games : List Game
  categories : List Category
  pictures : List Picture
  lookupFolders : List LookupFolder
  nextGameId : Nat
  nextCategoryId : Nat
  nextPictureId : Nat
  nextFolderId : Nat
  deriving DecidableEq, Repr

/-- Outcome of a stateful operation: normal return, or a raised Python
exception.  The database state is carried in both cases, because a raised
exception does not undo work already committed to the session. -/
inductive Res (α : Type) where
  | ok : α → DB → Res α
  | exn : String → DB → Res α
  deriving DecidableEq, Repr

/-- A dynamically typed argument, as passed to `crud.delete_game`: both call
sites in `main.py` pass `game.id` (a plain int) although the function expects
a mapped `Game` instance. -/
inductive PyVal where
  | game : Game → PyVal
  | int : Nat → PyVal
  deriving DecidableEq, Repr

/-- The characters strictly before the last occurrence of the separator, or
none when the separator does not occur. -/
def beforeLastSlash : List Char → Option (List Char)
  | [] => none
  | c :: rest =>
    match beforeLastSlash rest with
    | some tail => some (c :: tail)
    | none => if c = '/' then some [] else none

/-- `str(Path(p).parent)` for slash-separated paths: everything before the
final separator, or "." when there is none.  Both the source and the claims
only ever compare a stored field against this same derivation, so the exact
treatment of exotic paths is immaterial. -/
def pathParent (p : String) : String :=
  match beforeLastSlash p.data with
  | some pre => String.mk pre
  | none => "."

/-- Python `str.lower`, applied characterwise. -/
def pyLower (s : String) : String :=
  String.mk (s.data.map Char.toLower)

/-- Python `str.endswith`. -/
def pyEndsWith (s suffix : String) : Bool :=
  List.isSuffixOf suffix.data s.data

/-- Message of `sqlalchemy.orm.exc.UnmappedInstanceError`, raised by
`Session.delete` when given a value that is not a mapped instance. -/
def unmappedInstanceError : String := "UnmappedInstanceError: Class builtins.int is not mapped"

/-- Message of the `TypeError` Python raises when a call supplies a keyword
argument that is not a parameter of the callee. -/
def updateGameKeywordError : String :=
  "TypeError: update_game() got an unexpected keyword argument parent_folder"

/-- Model of the exception message raised on a non-200 HTTP response in
`main.py` (`raise Exception(f"Error: ...")`). -/
def httpErrorMessage : String := "Error: non-200 response"

/-- `crud.create_game`.  The existence check is
`filter(models.Game.name == name and models.Game.category == category)`:
the Python `and` discards the category condition (the first SQLAlchemy
expression is falsy), so the executed filter matches on the name only.
If no same-name game exists and the category row is missing, returns None
without inserting; otherwise inserts with `parent_directory`
derived from the executable. -/
def create_game (db : DB) (name category executable : String) (steamGridId : Int) :
    Option Game × DB :=
  match db.games.find? (fun g => g.name == name) with
  | some game => (some game, db)
  | none =>
    match db.categories.find? (fun c => c.name == category) with
    | none => (none, db)
    | some _catObj =>
      let game : Game :=
        { id := db.nextGameId, name := name, category := category,
          executable := executable, steamGridId := steamGridId,
          lastPlayed := none, parentDirectory := pathParent executable }
      (some game, { db with games := db.games ++ [game],
                            nextGameId := db.nextGameId + 1 })

/-- `crud.update_game`.  Each optional field is applied only when truthy
(`if name:` etc.), so the empty string and the integer 0 are skipped like
None; a datetime is always truthy.  `parent_directory` is recomputed from the
(possibly updated) executable whenever the `parent_directory` argument is
falsy.  The session commit persists the mutation of the row with the same
primary key. -/
def update_game (db : DB) (game : Game) (name category executable : Option String)
    (steamGridId : Option Int) (lastPlayed : Option Time)
    (parentDirectory : Option String) : Game × DB :=
  let g1 := match name with
    | some v => if v == "" then game else { game with name := v }
    | none => game
  let g2 := match category with
    | some v => if v == "" then g1 else { g1 with category := v }
    | none => g1
  let g3 := match executable with
    | some v => if v == "" then g2 else { g2 with executable := v }
    | none => g2
  let g4 := match steamGridId with
    | some v => if v == 0 then g3 else { g3 with steamGridId := v }
    | none => g3
  let g5 := match lastPlayed with
    | some v => { g4 with lastPlayed := some v }
    | none => g4
  let g6 := match parentDirectory with
    | some v => if v == "" then { g5 with parentDirectory := pathParent g5.executable }
                else { g5 with parentDirectory := v }
    | none => { g5 with parentDirectory := pathParent g5.executable }
  (g6, { db with games := db.games.map (fun x => if x.id == game.id then g6 else x) })

/-- `crud.delete_game`: `db.delete(game); db.commit()`.  `Session.delete`
requires a mapped instance and raises `UnmappedInstanceError` for a plain int;
both call sites in `main.py` pass `game.id`.  A successful delete removes only
the games row: the source has no explicit cascade to pictures. -/
def delete_game (db : DB) (v : PyVal) : Res Unit :=
  match v with
  | PyVal.game g => Res.ok () { db with games := db.games.filter (fun x => x.id != g.id) }
  | PyVal.int _ => Res.exn unmappedInstanceError db

/-- `crud.get_game`.  Same `and`-in-filter construct as `create_game`: the
executed filter restricts on the name only; the category argument is ignored
at runtime. -/
def get_game (db : DB) (name category : String) : Option Game :=
  db.games.find? (fun g => g.name == name)

/-- `crud.get_all_games`. -/
def get_all_games (db : DB) : List Game :=
  db.games

/-- `crud.create_category`: returns the existing row of the same name, else
inserts. -/
def create_category (db : DB) (name : String) : Category × DB :=
  match db.categories.find? (fun c => c.name == name) with
  | some category => (category, db)
  | none =>
    let category : Category := { id := db.nextCategoryId, name := name }
    (category, { db with categories := db.categories ++ [category],
                         nextCategoryId := db.nextCategoryId + 1 })

/-- `crud.create_picture`.  The existence check is
`filter(models.Picture.game_id == game_id and models.Picture.picture == picture)`;
the `and` discards the picture-bytes condition, so the executed filter matches
on game_id only. -/
def create_picture (db : DB) (picture : Bytes) (gameId : Nat) : Picture × DB :=
  match db.pictures.find? (fun p => p.gameId == gameId) with
  | some p => (p, db)
  | none =>
    let p : Picture := { id := db.nextPictureId, picture := picture, gameId := gameId }
    (p, { db with pictures := db.pictures ++ [p],
                  nextPictureId := db.nextPictureId + 1 })

/-- `crud.get_picture`: first picture row of the game. -/
def get_picture (db : DB) (gameId : Nat) : Option Picture :=
  db.pictures.find? (fun p => p.gameId == gameId)

/-- `crud.create_lookup_folder`: returns the existing row of the same
location, else inserts. -/
def create_lookup_folder (db : DB) (location : String) : LookupFolder × DB :=
  match db.lookupFolders.find? (fun f => f.location == location) with
  | some f => (f, db)
  | none =>
    let f : LookupFolder := { id := db.nextFolderId, location := location }
    (f, { db with lookupFolders := db.lookupFolders ++ [f],
                  nextFolderId := db.nextFolderId + 1 })

/-- `crud.get_lookup_folders`. -/
def get_lookup_folders (db : DB) : List LookupFolder :=
  db.lookupFolders

/-- An HTTP response: payload on status 200, otherwise the non-success status
code (on which `main.py` raises). -/
inductive HttpResp (α : Type) where
  | ok : α → HttpResp α
  | err : Nat → HttpResp α
  deriving DecidableEq, Repr

/-- One entry of the `data` array of the SteamGridDB autocomplete search
response: the fields `main.py` reads. -/
structure SearchEntry where
  name : String
  id : Int
  deriving DecidableEq, Repr

/-- One entry of the `data` array of the SteamGridDB grids response: the field
`main.py` reads. -/
structure GridEntry where
  url : String
  deriving DecidableEq, Repr

/-- The SteamGridDB side of the world: the autocomplete search response per
name, the grids response per game id, and the body fetched per image url.
All requests are pure reads of this oracle. -/
structure Steam where
  search : String → HttpResp (List SearchEntry)
  grids : Int → HttpResp (List GridEntry)
  fetchUrl : String → HttpResp Bytes

/-- `BrowserBackend._get_game_id_from_steam_grid`: raise on a non-200
response; otherwise return the id of the first result whose name matches the
queried name exactly, or -1 when none does. -/
def get_game_id_from_steam_grid (name : String) (resp : HttpResp (List SearchEntry)) :
    Except String Int :=
  match resp with
  | HttpResp.err _ => Except.error httpErrorMessage
  | HttpResp.ok results =>
    match results.find? (fun r => r.name == name) with
    | some r => Except.ok r.id
    | none => Except.ok (-1)

/-- `BrowserBackend._get_game_picture_from_steam_grid`: raise on a non-200
grids response; otherwise fetch the first result with a nonempty url (raising
if that fetch is non-200) and return its bytes; return empty bytes when no
result has a nonempty url. -/
def get_game_picture_from_steam_grid (resp : HttpResp (List GridEntry))
    (fetchUrl : String → HttpResp Bytes) : Except String Bytes :=
  match resp with
  | HttpResp.err _ => Except.error httpErrorMessage
  | HttpResp.ok results =>
    match results.find? (fun r => r.url != "") with
    | some r =>
      match fetchUrl r.url with
      | HttpResp.err _ => Except.error httpErrorMessage
      | HttpResp.ok content => Except.ok content
    | none => Except.ok []

/-- The value stored per game name by `_collect_games_from_folder`. -/
structure GameData where
  executable : String
  steamGridId : Int
  category : String
  deriving DecidableEq, Repr

/-- `BrowserBackend._collect_games_from_folder`, after the filesystem part:
`apps` is the `applications` dict (file name, executable path) produced by the
rglob walk and the executable-bit filter.  Each candidate is looked up in
SteamGridDB; a raised lookup exception propagates and aborts the whole pass; a
-1 result drops that candidate; otherwise the candidate is recorded with its
id and the suffix-inferred category ("VR" when the lowercased name ends with
"vr", else "PC"). -/
def collect_games_from_folder (w : Steam) : List (String × String) →
    Except String (List (String × GameData))
  | [] => Except.ok []
  | (name, exe) :: rest =>
    match get_game_id_from_steam_grid name (w.search name) with
    | Except.error e => Except.error e
    | Except.ok sgid =>
      match collect_games_from_folder w rest with
      | Except.error e => Except.error e
      | Except.ok tail =>
        if sgid == -1 then Except.ok tail
        else Except.ok ((name,
          { executable := exe, steamGridId := sgid,
            category := if pyEndsWith (pyLower name) "vr" then "VR" else "PC" }) :: tail)

/-- A dynamically typed Python keyword-argument value. -/
inductive Arg where
  | str : String → Arg
  | int : Int → Arg
  | time : Time → Arg
  deriving DecidableEq, Repr

/-- Extract a string keyword from a kwargs list. -/
def argStr (kwargs : List (String × Arg)) (k : String) : Option String :=
  match kwargs.lookup k with
  | some (Arg.str v) => some v
  | _ => none

/-- Extract an integer keyword from a kwargs list. -/
def argInt (kwargs : List (String × Arg)) (k : String) : Option Int :=
  match kwargs.lookup k with
  | some (Arg.int v) => some v
  | _ => none

/-- Extract a datetime keyword from a kwargs list. -/
def argTime (kwargs : List (String × Arg)) (k : String) : Option Time :=
  match kwargs.lookup k with
  | some (Arg.time v) => some v
  | _ => none

/-- The keyword parameter names of `crud.update_game`. -/
def updateGameKeywords : List String :=
  ["name", "category", "executable", "steam_grid_id", "last_played", "parent_directory"]

/-- A Python keyword call `crud.update_game(db, game, k1=v1, ...)`: a supplied
keyword that is not among the parameter names raises `TypeError` before the
body runs; otherwise each parameter is bound from the kwargs (absent ones stay
None) and the body executes. -/
def callUpdateGame (db : DB) (game : Game) (kwargs : List (String × Arg)) : Res Game :=
  if kwargs.all (fun kv => updateGameKeywords.contains kv.1) then
    let r := update_game db game (argStr kwargs "name") (argStr kwargs "category")
      (argStr kwargs "executable") (argInt kwargs "steam_grid_id")
      (argTime kwargs "last_played") (argStr kwargs "parent_directory")
    Res.ok r.1 r.2
  else Res.exn updateGameKeywordError db

/-- `BrowserBackend.add_new_game`: resolve the SteamGridDB id when not given
(raising on lookup failure), fetch the artwork (raising on HTTP failure),
create the game (raising when creation returns None), and on empty artwork
bytes attempt the compensating `crud.delete_game(db, game.id)` — which is
passed the id, an int, and therefore raises `UnmappedInstanceError` with the
created game still in the store; otherwise store the picture. -/
def add_new_game (w : Steam) (name category executable : String)
    (steamGridId : Option Int) (db : DB) : Res Unit :=
  let resolved : Except String Int :=
    match steamGridId with
    | none => get_game_id_from_steam_grid name (w.search name)
    | some i => Except.ok i
  match resolved with
  | Except.error e => Res.exn e db
  | Except.ok sgid =>
    match get_game_picture_from_steam_grid (w.grids sgid) w.fetchUrl with
    | Except.error e => Res.exn e db
    | Except.ok picture =>
      match create_game db name category executable sgid with
      | (none, db1) => Res.exn "Error while creating game" db1
      | (some game, db1) =>
        if picture == ([] : Bytes) then
          match delete_game db1 (PyVal.int game.id) with
          | Res.ok _ db2 => Res.exn "Error while getting game picture" db2
          | Res.exn e db2 => Res.exn e db2
        else
          Res.ok () (create_picture db1 picture game.id).2

/-- `BrowserBackend.launch_game`: look the game up (the category argument is
ignored by the name-only filter of `get_game`), raise when absent, stamp
`last_played` via a keyword call to `crud.update_game`, then launch the stored
executable, raising on a non-zero exit without reverting the stamp. -/
def launch_game (launcher : String → Bool) (now : Time) (name category : String)
    (db : DB) : Res Unit :=
  match get_game db name category with
  | none => Res.exn "Game does not exist in the database" db
  | some game =>
    match callUpdateGame db game [("last_played", Arg.time now)] with
    | Res.exn e db1 => Res.exn e db1
    | Res.ok _ db1 =>
      if launcher game.executable then Res.ok () db1
      else Res.exn "Error while launching game" db1

/-- The external world of a reconciliation pass: the SteamGridDB oracle and
the filesystem walk result (applications dict) per lookup-folder location. -/
structure Env where
  steam : Steam
  fs : String → List (String × String)

/-- Python `dict.update`: keys already present keep their position and take
the new value; new keys are appended in order. -/
def dictUpdate (d new : List (String × GameData)) : List (String × GameData) :=
  d.map (fun kv => match new.lookup kv.1 with
         | some v => (kv.1, v)
         | none => kv) ++
    new.filter (fun kv => (d.lookup kv.1).isNone)

/-- The `games` accumulation loop of `BrowserBackend.update_games`: collect
each lookup folder and merge with `dict.update`; a collection exception
propagates. -/
def collectAll (env : Env) : List LookupFolder → List (String × GameData) →
    Except String (List (String × GameData))
  | [], acc => Except.ok acc
  | lf :: rest, acc =>
    match collect_games_from_folder env.steam (env.fs lf.location) with
    | Except.error e => Except.error e
    | Except.ok g => collectAll env rest (dictUpdate acc g)

/-- First loop of `BrowserBackend.update_games` over the pre-pass snapshot of
stored games: a game whose name is absent from the discovered dict is deleted
via `crud.delete_game(db, game.id)` (the id, an int — raising
`UnmappedInstanceError`); a present one is updated via
`crud.update_game(db, game, executable=..., parent_folder=...)` — but
`parent_folder` is not a parameter of `crud.update_game`, so the keyword call
raises `TypeError`. -/
def reconcileLoop (games : List (String × GameData)) : List Game → DB → Res Unit
  | [], db => Res.ok () db
  | game :: rest, db =>
    match games.lookup game.name with
    | none =>
      match delete_game db (PyVal.int game.id) with
      | Res.ok _ db1 => reconcileLoop games rest db1
      | Res.exn e db1 => Res.exn e db1
    | some gd =>
      match callUpdateGame db game
        [("executable", Arg.str gd.executable),
         ("parent_folder", Arg.str (pathParent gd.executable))] with
      | Res.ok _ db1 => reconcileLoop games rest db1
      | Res.exn e db1 => Res.exn e db1

/-- Second loop of `BrowserBackend.update_games`: every discovered name absent
from the pre-pass name snapshot is inserted with `add_new_game`.  The
`breakpoint()` in the source is a debugger hook with no effect on the store
and is modeled as a no-op. -/
def insertLoop (w : Steam) (dbGamesNames : List String) :
    List (String × GameData) → DB → Res Unit
  | [], db => Res.ok () db
  | (gname, gd) :: rest, db =>
    if dbGamesNames.contains gname then insertLoop w dbGamesNames rest db
    else
      match add_new_game w gname gd.category gd.executable (some gd.steamGridId) db with
      | Res.ok _ db1 => insertLoop w dbGamesNames rest db1
      | Res.exn e db1 => Res.exn e db1

/-- `BrowserBackend.update_games`: collect the discovered dict from all lookup
folders, then run the delete-or-update loop and the insertion loop against the
pre-pass snapshot of stored games. -/
def update_games (env : Env) (db : DB) : Res Unit :=
  match collectAll env (get_lookup_folders db) [] with
  | Except.error e => Res.exn e db
  | Except.ok games =>
    let dbGames := get_all_games db
    match reconcileLoop games dbGames db with
    | Res.exn e db1 => Res.exn e db1
    | Res.ok _ db1 => insertLoop env.steam (dbGames.map (fun g => g.name)) games db1

/-- The spec predicate for category inference: the candidate name ends with
the case-insensitive suffix "vr". -/
def hasVrSuffixCI (name : String) : Bool :=
  pyEndsWith (pyLower name) "vr"

/-! Concrete scenarios used to settle the claims. -/

/-- C1 scenario oracle: "Foo" resolves to SteamGridDB id 1 with a nonempty
image; nothing else resolves. -/
def steamC1 : Steam :=
  { search := fun n => if n == "Foo" then HttpResp.ok [{ name := "Foo", id := 1 }]
              else HttpResp.ok []
  , grids := fun _ => HttpResp.ok [{ url := "u" }]
  , fetchUrl := fun _ => HttpResp.ok [7] }

/-- C1 scenario: one lookup folder whose walk finds Foo at lib/Foo.exe. -/
def envC1 : Env := { steam := steamC1, fs := fun _ => [("Foo", "lib/Foo.exe")] }

/-- C1 scenario initial store: the PC category and the registered folder, no
games yet. -/
def dbC1 : DB :=
  { games := [], categories := [{ id := 1, name := "PC" }], pictures := [],
    lookupFolders := [{ id := 1, location := "lib" }],
    nextGameId := 1, nextCategoryId := 2, nextPictureId := 1, nextFolderId := 2 }

/-- C1 scenario store after the first (completing) pass: the Foo game and its
picture inserted. -/
def dbC1After : DB :=
  { games := [{ id := 1, name := "Foo", category := "PC", executable := "lib/Foo.exe",
                steamGridId := 1, lastPlayed := none, parentDirectory := "lib" }],
    categories := [{ id := 1, name := "PC" }],
    pictures := [{ id := 1, picture := [7], gameId := 1 }],
    lookupFolders := [{ id := 1, location := "lib" }],
    nextGameId := 2, nextCategoryId := 2, nextPictureId := 2, nextFolderId := 2 }

/-- C2 scenario: the walk finds nothing on disk; the SteamGridDB oracle is
never consulted successfully. -/
def envC2 : Env :=
  { steam := { search := fun _ => HttpResp.ok [], grids := fun _ => HttpResp.ok [],
               fetchUrl := fun _ => HttpResp.ok [] }
  , fs := fun _ => [] }

/-- C2 scenario store: the game "Gone" with a picture, and a registered
folder under which discovery no longer finds it. -/
def dbC2 : DB :=
  { games := [{ id := 1, name := "Gone", category := "PC", executable := "g/Gone.exe",
                steamGridId := 3, lastPlayed := none, parentDirectory := "g" }],
    categories := [{ id := 1, name := "PC" }],
    pictures := [{ id := 1, picture := [9], gameId := 1 }],
    lookupFolders := [{ id := 1, location := "lib" }],
    nextGameId := 2, nextCategoryId := 2, nextPictureId := 2, nextFolderId := 2 }

/-- C3 scenario oracle: "Foo" resolves to id 7. -/
def steamC3 : Steam :=
  { search := fun n => if n == "Foo" then HttpResp.ok [{ name := "Foo", id := 7 }]
              else HttpResp.ok []
  , grids := fun _ => HttpResp.ok [], fetchUrl := fun _ => HttpResp.ok [] }

/-- C3 scenario: discovery now reports Foo at new/Foo.exe. -/
def envC3 : Env := { steam := steamC3, fs := fun _ => [("Foo", "new/Foo.exe")] }

/-- C3 scenario store: Foo stored with the old executable path. -/
def dbC3 : DB :=
  { games := [{ id := 1, name := "Foo", category := "PC", executable := "old/Foo.exe",
                steamGridId := 7, lastPlayed := none, parentDirectory := "old" }],
    categories := [{ id := 1, name := "PC" }],
    pictures := [],
    lookupFolders := [{ id := 1, location := "lib" }],
    nextGameId := 2, nextCategoryId := 2, nextPictureId := 1, nextFolderId := 2 }

/-- C4 scenario oracle: the grids response for every id carries no usable
url, so the artwork fetch yields empty bytes. -/
def steamC4 : Steam :=
  { search := fun _ => HttpResp.ok [], grids := fun _ => HttpResp.ok []
  , fetchUrl := fun _ => HttpResp.ok [] }

/-- C4 scenario store: the PC category exists and no game named Bar. -/
def dbC4 : DB :=
  { games := [], categories := [{ id := 1, name := "PC" }], pictures := [],
    lookupFolders := [],
    nextGameId := 1, nextCategoryId := 2, nextPictureId := 1, nextFolderId := 1 }

/-- C5 oracle: the search for "Alpha" returns a non-success response (HTTP
500); "Beta" resolves to id 2; other names return an empty result list. -/
def steamC5 : Steam :=
  { search := fun n =>
      if n == "Alpha" then HttpResp.err 500
      else if n == "Beta" then HttpResp.ok [{ name := "Beta", id := 2 }]
      else HttpResp.ok []
  , grids := fun _ => HttpResp.ok [], fetchUrl := fun _ => HttpResp.ok [] }

/-- C6 oracle: "BetaVR" resolves to id 2. -/
def steamC6 : Steam :=
  { search := fun n => if n == "BetaVR" then HttpResp.ok [{ name := "BetaVR", id := 2 }]
              else HttpResp.ok []
  , grids := fun _ => HttpResp.ok [], fetchUrl := fun _ => HttpResp.ok [] }

/-- C7 scenario stored game: Foo in category PC. -/
def gameC7 : Game :=
  { id := 1, name := "Foo", category := "PC", executable := "d/Foo.exe",
    steamGridId := 5, lastPlayed := none, parentDirectory := "d" }

/-- C7 scenario store: only ("Foo","PC") exists; both categories exist. -/
def dbC7 : DB :=
  { games := [gameC7],
    categories := [{ id := 1, name := "PC" }, { id := 2, name := "VR" }],
    pictures := [], lookupFolders := [],
    nextGameId := 2, nextCategoryId := 3, nextPictureId := 1, nextFolderId := 1 }

/-- C8 counterexample store: two games named "Foo", one per category, the VR
one first. -/
def dbC8 : DB :=
  { games := [{ id := 1, name := "Foo", category := "VR", executable := "v/Foo.exe",
                steamGridId := 1, lastPlayed := none, parentDirectory := "v" },
              { id := 2, name := "Foo", category := "PC", executable := "p/Foo.exe",
                steamGridId := 2, lastPlayed := none, parentDirectory := "p" }],
    categories := [{ id := 1, name := "VR" }, { id := 2, name := "PC" }],
    pictures := [], lookupFolders := [],
    nextGameId := 3, nextCategoryId := 3, nextPictureId := 1, nextFolderId := 1 }

/-- C8 witness store row: the stored game named "Foo". -/
def gameC8w : Game :=
  { id := 1, name := "Foo", category := "PC", executable := "p/Foo.exe",
    steamGridId := 2, lastPlayed := none, parentDirectory := "p" }

/-- C8 witness store rows: category, picture and lookup folder. -/
def catC8w : Category := { id := 1, name := "PC" }

/-- C8 witness picture row. -/
def picC8w : Picture := { id := 1, picture := [1], gameId := 1 }

/-- C8 witness lookup-folder row. -/
def folderC8w : LookupFolder := { id := 1, location := "L" }

/-- C8 witness store with all four record kinds populated. -/
def dbC8w : DB :=
  { games := [gameC8w], categories := [catC8w], pictures := [picC8w],
    lookupFolders := [folderC8w],
    nextGameId := 2, nextCategoryId := 2, nextPictureId := 2, nextFolderId := 2 }

/-- C9 witness store: the PC category and one stored game. -/
def gameC9 : Game :=
  { id := 1, name := "Old", category := "PC", executable := "o/Old.exe",
    steamGridId := 1, lastPlayed := none, parentDirectory := "o" }

/-- C9 witness store. -/
def dbC9 : DB :=
  { games := [gameC9], categories := [{ id := 1, name := "PC" }], pictures := [],
    lookupFolders := [],
    nextGameId := 2, nextCategoryId := 2, nextPictureId := 1, nextFolderId := 1 }

/-- C9 witness: the game create_game inserts in dbC9. -/
def newGameC9 : Game :=
  { id := 2, name := "New", category := "PC", executable := "n/New.exe",
    steamGridId := 4, lastPlayed := none, parentDirectory := "n" }

/-- C10 counterexample store: a game named "Foo" in category PC; no VR
category exists. -/
def dbC10 : DB :=
  { games := [{ id := 1, name := "Foo", category := "PC", executable := "p/Foo.exe",
                steamGridId := 2, lastPlayed := none, parentDirectory := "p" }],
    categories := [{ id := 1, name := "PC" }],
    pictures := [], lookupFolders := [],
    nextGameId := 2, nextCategoryId := 2, nextPictureId := 1, nextFolderId := 1 }

/-- C10 witness store: empty, in particular no categories at all. -/
def dbC10w : DB :=
  { games := [], categories := [], pictures := [], lookupFolders := [],
    nextGameId := 1, nextCategoryId := 1, nextPictureId := 1, nextFolderId := 1 }

/-! The claims. -/

/-- C1 (code_bug): the spec requires a second reconciliation pass with no
external changes to complete with zero net mutations.  In the code, a pass
that rediscovers any stored game calls
`crud.update_game(db, game, executable=..., parent_folder=...)`; the keyword
`parent_folder` is not a parameter of `crud.update_game` (it is named
`parent_directory`), so the second run aborts with a TypeError at its first
stored game instead of completing as a no-op: the first run from an empty
store completes and inserts the Foo game and its picture, and the second run
over the identical environment raises. -/
theorem update_games_second_run_raises :
    update_games envC1 dbC1 = Res.ok () dbC1After ∧
    update_games envC1 dbC1After = Res.exn updateGameKeywordError dbC1After := by
  constructor <;> rfl

/-- C2 (code_bug): the spec requires games absent from discovery to be
deleted together with their pictures.  The code calls
`crud.delete_game(db, game.id)`, passing the integer id where `delete_game`
expects the `Game` instance; `db.delete` raises `UnmappedInstanceError`, the
pass aborts, and the game "Gone" and its picture both persist unchanged. -/
theorem update_games_removal_raises :
    update_games envC2 dbC2 = Res.exn unmappedInstanceError dbC2 := by
  rfl

/-- C3 (code_bug): the spec requires a rediscovered game to have its
executable updated and its parent-directory recomputed.  The code calls
`crud.update_game` with the nonexistent keyword `parent_folder`, so the pass
aborts with a TypeError and the stored Foo keeps its old executable
old/Foo.exe and parent-directory "old". -/
theorem update_games_update_raises :
    update_games envC3 dbC3 = Res.exn updateGameKeywordError dbC3 := by
  rfl

/-- C4 (code_bug): the spec requires creation to be all-or-nothing — on
empty artwork bytes no Game record may persist.  In the code the compensating
call is `crud.delete_game(db, game.id)` with the integer id, which raises
`UnmappedInstanceError`; an exception does propagate, but the freshly
committed Game record "Bar" remains in the store with no picture. -/
theorem add_new_game_empty_artwork_game_persists :
    add_new_game steamC4 "Bar" "PC" "b/Bar.exe" (some 1) dbC4 =
      Res.exn unmappedInstanceError
        { dbC4 with
          games := [{ id := 1, name := "Bar", category := "PC",
                      executable := "b/Bar.exe", steamGridId := 1,
                      lastPlayed := none, parentDirectory := "b" }],
          nextGameId := 2 } := by
  rfl

/-- C5 counterexample: the claim says a non-success lookup response for one
candidate drops only that candidate and must not abort the pass.  With the
search for "Alpha" answering HTTP 500 and "Beta" resolving to id 2, the whole
collection aborts with the raised exception and "Beta" is not collected
either. -/
theorem collect_http_error_aborts_pass :
    collect_games_from_folder steamC5 [("Alpha", "a/Alpha.exe"), ("Beta", "b/Beta.exe")] =
      Except.error httpErrorMessage := by
  rfl

/-- C5 amended: a successful (HTTP 200) lookup with no exact-name match
(id -1) drops only that candidate and matching continues with the remaining
candidates; but a non-success lookup response raises an exception that aborts
the entire collection pass. -/
theorem collect_per_candidate_handling (w : Steam) (name exe : String)
    (rest : List (String × String)) :
    (get_game_id_from_steam_grid name (w.search name) = Except.ok (-1) →
      collect_games_from_folder w ((name, exe) :: rest) =
        collect_games_from_folder w rest) ∧
    (∀ e, get_game_id_from_steam_grid name (w.search name) = Except.error e →
      collect_games_from_folder w ((name, exe) :: rest) = Except.error e) := by
  constructor
  · intro h
    simp only [collect_games_from_folder, h]
    cases collect_games_from_folder w rest <;> simp
  · intro e h
    simp only [collect_games_from_folder, h]

/-- C5 witness: at the concrete oracle, "Gamma" (an empty 200 result, id -1)
is dropped with the pass continuing, while "Alpha" (HTTP 500) aborts it. -/
theorem collect_per_candidate_handling_witness :
    collect_games_from_folder steamC5 [("Gamma", "g.exe"), ("Beta", "b/Beta.exe")] =
      collect_games_from_folder steamC5 [("Beta", "b/Beta.exe")] ∧
    collect_games_from_folder steamC5 [("Alpha", "a.exe")] =
      Except.error httpErrorMessage :=
  ⟨(collect_per_candidate_handling steamC5 "Gamma" "g.exe" [("Beta", "b/Beta.exe")]).1
      (by rfl),
   (collect_per_candidate_handling steamC5 "Alpha" "a.exe" []).2 httpErrorMessage (by rfl)⟩

/-- C6 (confirmed): every candidate that survives collection (was matched
against SteamGridDB) carries category "VR" exactly when its name ends with
the case-insensitive suffix "vr", and "PC" otherwise. -/
theorem collect_category_inference (w : Steam) (apps : List (String × String))
    (l : List (String × GameData)) (name : String) (gd : GameData)
    (hok : collect_games_from_folder w apps = Except.ok l)
    (hmem : (name, gd) ∈ l) :
    gd.category = if hasVrSuffixCI name then "VR" else "PC" := by
  induction apps generalizing l with
  | nil =>
    simp only [collect_games_from_folder, Except.ok.injEq] at hok
    subst hok
    cases hmem
  | cons hd tl ih =>
    obtain ⟨n, e⟩ := hd
    simp only [collect_games_from_folder] at hok
    cases hsg : get_game_id_from_steam_grid n (w.search n) with
    | error msg => rw [hsg] at hok; cases hok
    | ok sgid =>
      rw [hsg] at hok
      dsimp only at hok
      cases htl : collect_games_from_folder w tl with
      | error msg => rw [htl] at hok; cases hok
      | ok tail =>
        rw [htl] at hok
        dsimp only at hok
        by_cases hneg : sgid == -1
        · rw [if_pos hneg] at hok
          have hl : tail = l := by injection hok
          subst hl
          exact ih tail htl hmem
        · rw [if_neg hneg] at hok
          injection hok with hl
          rw [← hl] at hmem
          rcases List.mem_cons.mp hmem with hhd | hmem2
          · cases hhd
            rfl
          · exact ih tail htl hmem2

/-- C6 witness: collecting the single candidate "BetaVR" (resolved to id 2)
yields category "VR", matching the case-insensitive suffix rule. -/
theorem collect_category_inference_witness :
    ({ executable := "b/BetaVR.exe", steamGridId := 2, category := "VR" } : GameData).category =
      if hasVrSuffixCI "BetaVR" then "VR" else "PC" :=
  collect_category_inference steamC6 [("BetaVR", "b/BetaVR.exe")]
    [("BetaVR", { executable := "b/BetaVR.exe", steamGridId := 2, category := "VR" })]
    "BetaVR" { executable := "b/BetaVR.exe", steamGridId := 2, category := "VR" }
    (by rfl) (by simp)

/-- C10 witness oracle: grids responses carry no usable url, so the artwork
fetch succeeds with empty bytes. -/
def steamC10w : Steam :=
  { search := fun _ => HttpResp.ok [], grids := fun _ => HttpResp.ok []
  , fetchUrl := fun _ => HttpResp.ok [] }

/-- Keyword call of `crud.update_game` with only `last_played=...`: all
keywords are valid, nothing but the timestamp is updated, and the
parent-directory is recomputed from the (unchanged) executable. -/
theorem callUpdateGame_last_played (db : DB) (game : Game) (now : Time) :
    callUpdateGame db game [("last_played", Arg.time now)] =
      Res.ok { game with lastPlayed := some now,
                         parentDirectory := pathParent game.executable }
        { db with games := db.games.map (fun x => if x.id == game.id then
            { game with lastPlayed := some now,
                        parentDirectory := pathParent game.executable } else x) } := by
  rfl

/-- C7 counterexample: the store holds only the game ("Foo","PC"); no Game
("Foo","VR") exists, so the claim requires launch_game "Foo" "VR" to fail
with a not-found error.  Instead the name-only lookup finds the PC game, the
call succeeds, and the PC game gets its last-played stamped. -/
theorem launch_game_wrong_category_launches :
    launch_game (fun _ => true) 11 "Foo" "VR" dbC7 =
      Res.ok () { dbC7 with games := [{ gameC7 with lastPlayed := some 11 }] } := by
  rfl

/-- C7 amended: the lookup of launch_game matches on the name only (the
category condition of `crud.get_game` is discarded by the and-in-filter
construct).  When no game with the given name exists the call fails with the
not-found error; otherwise the first name-matching game has its last-played
set to the current time (and its parent-directory recomputed) before the
launch is attempted, and a launch failure raises a launch error without
reverting that update. -/
theorem launch_game_name_only_behavior (launcher : String → Bool) (now : Time)
    (name category : String) (db : DB) :
    (db.games.find? (fun g => g.name == name) = none →
      launch_game launcher now name category db =
        Res.exn "Game does not exist in the database" db) ∧
    (∀ g, db.games.find? (fun x => x.name == name) = some g →
      launch_game launcher now name category db =
        (if launcher g.executable then
          Res.ok () { db with games := db.games.map (fun x => if x.id == g.id then
            { g with lastPlayed := some now,
                     parentDirectory := pathParent g.executable } else x) }
         else
          Res.exn "Error while launching game"
            { db with games := db.games.map (fun x => if x.id == g.id then
              { g with lastPlayed := some now,
                       parentDirectory := pathParent g.executable } else x) })) := by
  constructor
  · intro h
    simp only [launch_game, get_game, h]
  · intro g h
    simp only [launch_game, get_game, h, callUpdateGame_last_played]

/-- C7 witness: launching ("Foo","PC") with a failing launcher raises the
launch error while the last-played stamp persists. -/
theorem launch_game_name_only_behavior_witness :
    launch_game (fun _ => false) 7 "Foo" "PC" dbC7 =
      Res.exn "Error while launching game"
        { dbC7 with games := [{ gameC7 with lastPlayed := some 7 }] } := by
  have h := (launch_game_name_only_behavior (fun _ => false) 7 "Foo" "PC" dbC7).2
    gameC7 (by rfl)
  rw [h]
  rfl

/-- C8 counterexample: dbC8 holds a game with identity ("Foo","PC") (id 2),
but create_game "Foo" "PC" returns the id-1 record of category "VR" — the
first name match — not the record with the requested identity. -/
theorem create_game_returns_other_category_record :
    (dbC8.games.any (fun g => g.name == "Foo" && g.category == "PC")) = true ∧
    (create_game dbC8 "Foo" "PC" "x/Foo.exe" 9).1 =
      some { id := 1, name := "Foo", category := "VR", executable := "v/Foo.exe",
             steamGridId := 1, lastPlayed := none, parentDirectory := "v" } ∧
    (create_game dbC8 "Foo" "PC" "x/Foo.exe" 9).1 ≠
      some { id := 2, name := "Foo", category := "PC", executable := "p/Foo.exe",
             steamGridId := 2, lastPlayed := none, parentDirectory := "p" } := by
  refine ⟨rfl, rfl, ?_⟩
  decide

/-- C8 amended: each create of the store layer returns early, inserting
nothing, whenever a record matching the FIRST component of its lookup filter
exists — the name for Game (the category condition is discarded by the
and-in-filter construct), the name for Category, the game_id for Picture (the
bytes condition is discarded), the location for LookupFolder — and returns
the first such record, which for Game need not carry the requested
category. -/
theorem create_ops_idempotent_on_first_field (db : DB) (n cg cc e loc : String)
    (i : Int) (g : Game) (b : Bytes) (gid : Nat) (cat : Category) (p : Picture)
    (f : LookupFolder) :
    (db.games.find? (fun x => x.name == n) = some g →
      create_game db n cg e i = (some g, db)) ∧
    (db.categories.find? (fun x => x.name == cc) = some cat →
      create_category db cc = (cat, db)) ∧
    (db.pictures.find? (fun x => x.gameId == gid) = some p →
      create_picture db b gid = (p, db)) ∧
    (db.lookupFolders.find? (fun x => x.location == loc) = some f →
      create_lookup_folder db loc = (f, db)) := by
  refine ⟨fun h => ?_, fun h => ?_, fun h => ?_, fun h => ?_⟩ <;>
    simp only [create_game, create_category, create_picture, create_lookup_folder, h]

/-- C8 witness: on a store holding one record of each kind, each create
returns the existing record and leaves the store unchanged (the Game create
is called with category "VR" although the stored "Foo" is in "PC"). -/
theorem create_ops_idempotent_on_first_field_witness :
    create_game dbC8w "Foo" "VR" "x/Foo.exe" 9 = (some gameC8w, dbC8w) ∧
    create_category dbC8w "PC" = (catC8w, dbC8w) ∧
    create_picture dbC8w [2] 1 = (picC8w, dbC8w) ∧
    create_lookup_folder dbC8w "L" = (folderC8w, dbC8w) := by
  have h := create_ops_idempotent_on_first_field dbC8w "Foo" "VR" "PC" "x/Foo.exe" "L"
    9 gameC8w [2] 1 catC8w picC8w folderC8w
  exact ⟨h.1 (by rfl), h.2.1 (by rfl), h.2.2.1 (by rfl), h.2.2.2 (by rfl)⟩

/-- The game returned by `crud.update_game` always carries a parent-directory
recomputed from its (possibly updated) executable when the parent_directory
argument is absent. -/
theorem update_game_fst_parent (db : DB) (game : Game)
    (nm cat exe : Option String) (sgi : Option Int) (lp : Option Time) :
    (update_game db game nm cat exe sgi lp none).1.parentDirectory =
      pathParent (update_game db game nm cat exe sgi lp none).1.executable := by
  rfl

/-- The games table after `crud.update_game` replaces rows with the updated
game exactly at the primary key of the given game. -/
theorem update_game_snd_games (db : DB) (game : Game)
    (nm cat exe : Option String) (sgi : Option Int) (lp : Option Time)
    (pd : Option String) :
    (update_game db game nm cat exe sgi lp pd).2.games =
      db.games.map (fun x => if x.id == game.id then
        (update_game db game nm cat exe sgi lp pd).1 else x) := by
  rfl

/-- C9 (confirmed): after create_game, and after any update_game call with no
parent_directory argument, every game in the store either was already stored
before the call (and is untouched by it) or has its parent-directory equal to
the containing folder of its executable path. -/
theorem parent_directory_invariant (db : DB) (n c e : String) (i : Int)
    (game : Game) (nm cat exe : Option String) (sgi : Option Int)
    (lp : Option Time) :
    (∀ g, g ∈ (create_game db n c e i).2.games → g ∈ db.games ∨
      g.parentDirectory = pathParent g.executable) ∧
    (∀ g, g ∈ (update_game db game nm cat exe sgi lp none).2.games → g ∈ db.games ∨
      g.parentDirectory = pathParent g.executable) := by
  constructor
  · intro g hg
    unfold create_game at hg
    cases hfind : db.games.find? (fun x => x.name == n) with
    | some g0 => rw [hfind] at hg; exact Or.inl hg
    | none =>
      rw [hfind] at hg
      cases hcat : db.categories.find? (fun x => x.name == c) with
      | none => rw [hcat] at hg; exact Or.inl hg
      | some catObj =>
        rw [hcat] at hg
        dsimp only at hg
        rcases List.mem_append.mp hg with h1 | h2
        · exact Or.inl h1
        · right
          rw [List.mem_singleton.mp h2]
  · intro g hg
    rw [update_game_snd_games] at hg
    rcases List.mem_map.mp hg with ⟨x, hx, hgx⟩
    by_cases hid : (x.id == game.id) = true
    · rw [if_pos hid] at hgx
      rw [← hgx]
      exact Or.inr (update_game_fst_parent db game nm cat exe sgi lp)
    · rw [if_neg hid] at hgx
      rw [← hgx]
      exact Or.inl hx

/-- C9 witness: the game freshly inserted by create_game into dbC9 satisfies
the parent-directory invariant. -/
theorem parent_directory_invariant_witness :
    newGameC9 ∈ dbC9.games ∨
      newGameC9.parentDirectory = pathParent newGameC9.executable :=
  (parent_directory_invariant dbC9 "New" "PC" "n/New.exe" 4 gameC9 none none
    (some "n2/New.exe") none none).1 newGameC9 (by decide)

/-- C10 counterexample: dbC10 has no "VR" category, yet create_game with
category "VR" does not return None: the existing same-name game "Foo" is
returned before the category check runs. -/
theorem create_game_missing_category_not_none :
    (dbC10.categories.any (fun c => c.name == "VR")) = false ∧
    (create_game dbC10 "Foo" "VR" "x/Foo.exe" 9).1 ≠ none := by
  decide

/-- C10 amended: when no game with the requested name exists AND no Category
record with the requested category name exists, create_game returns None and
inserts nothing, and add_new_game consequently raises its creation error
(leaving the store unchanged, with no Category created on demand) whenever
the artwork fetch itself does not raise. -/
theorem create_game_missing_category_none (w : Steam) (db : DB) (n c e : String)
    (i : Int) (bs : Bytes)
    (hg : db.games.find? (fun g => g.name == n) = none)
    (hc : db.categories.find? (fun x => x.name == c) = none)
    (hp : get_game_picture_from_steam_grid (w.grids i) w.fetchUrl = Except.ok bs) :
    create_game db n c e i = (none, db) ∧
    add_new_game w n c e (some i) db = Res.exn "Error while creating game" db := by
  have h1 : create_game db n c e i = (none, db) := by
    simp only [create_game, hg, hc]
  refine ⟨h1, ?_⟩
  simp only [add_new_game, hp, h1]

/-- C10 witness: on an empty store with no categories at all, create_game
returns None and add_new_game raises the creation error. -/
theorem create_game_missing_category_none_witness :
    create_game dbC10w "Baz" "VR" "z/Baz.exe" 3 = (none, dbC10w) ∧
    add_new_game steamC10w "Baz" "VR" "z/Baz.exe" (some 3) dbC10w =
      Res.exn "Error while creating game" dbC10w :=
  create_game_missing_category_none steamC10w dbC10w "Baz" "VR" "z/Baz.exe" 3 []
    (by rfl) (by rfl) (by rfl)
